import Mathlib

/-!
# Verification of the silver-price monitoring daemon (`src/main.py`)

Shallow embedding of the monitoring/alerting core of the repository:
the `MonitorState` record and its update methods, the `monitoring_cycle`
function (price-failure counting, benchmark initialization, periodic
report, threshold alert with rebasing, CME announcement scan), and the
`check_cme_news` announcement tracker.

Modelling conventions:
* Python floats (prices, FX rate, timestamps) are modelled as `ℚ`.
  In `ℚ` division by zero yields 0; the source never divides by zero on
  the paths covered by the theorems below.
* Python's `set` of seen links is modelled as a `List String` used only
  through membership and insertion, which preserves the set semantics.
* The Telegram messages sent by the source (`send_telegram` calls) are
  modelled as an output trace of `Msg` values, in the order the source
  dispatches them.  Only the semantically relevant fields of each message
  are kept (the numbers and strings interpolated into the message text),
  not the surrounding HTML formatting.
* `title.lower()` is modelled by mapping `Char.toLower` over the title's
  characters, and Python's substring test `k in s` by `listSubB`.
-/

/-- Constant `PRICE_ALERT_THRESHOLD = 0.3` (source line 29). -/
def PRICE_ALERT_THRESHOLD : ℚ := 3/10

/-- Constant `REPORT_INTERVAL = 3600` (source line 32). -/
def REPORT_INTERVAL : ℚ := 3600

/-- The kg→ounce conversion factor `32.1507466` used at source line 351. -/
def KG_TO_OZ_FACTOR : ℚ := 321507466/10000000

/-- Boolean test: the list `n` is a prefix of the list `h`
(char-by-char, with `==`). -/
def listPrefixB : List Char → List Char → Bool
  | [], _ => true
  | _ :: _, [] => false
  | a :: as, b :: bs => a == b && listPrefixB as bs

/-- Boolean substring test on character lists: models Python's
`needle in hay`. -/
def listSubB (n : List Char) : List Char → Bool
  | [] => n.isEmpty
  | c :: t => listPrefixB n (c :: t) || listSubB n t

/-- Python's `title.lower()`: lower-case every character of the title. -/
def lowerChars (s : String) : List Char := s.data.map Char.toLower

/-- Keyword list `silver_keywords` (source line 240). -/
def silver_keywords : List String := ["silver", "white metal", "ag"]

/-- Keyword list `margin_keywords` (source lines 244-248). -/
def margin_keywords : List String :=
  ["margin", "performance bond", "collateral",
   "initial margin", "maintenance margin",
   "margin increase", "margin decrease"]

/-- Predicate `has_silver = any(k in title.lower() for k in silver_keywords)`
(source line 241). -/
def has_silver (title : String) : Bool :=
  silver_keywords.any fun k => listSubB k.data (lowerChars title)

/-- Predicate `has_margin = any(k in title.lower() for k in margin_keywords)`
(source line 249). -/
def has_margin (title : String) : Bool :=
  margin_keywords.any fun k => listSubB k.data (lowerChars title)

/-- One parsed RSS feed entry: the fields of `entry` read by
`check_cme_news` (source lines 231-233). -/
structure Entry where
  title : String
  link : String
  published : String
deriving DecidableEq

/-- The Telegram messages the source can send, reduced to their
semantically relevant fields:
* `degradation` — the consecutive-failure system warning (lines 341-345);
* `report` — the hourly report (lines 379-391): COMEX price, converted
  Shanghai price, FX rate, spread, benchmark, change, percentage change,
  success rate;
* `priceAlert` — the threshold alert (lines 404-414): direction
  (`rise = true` for 急漲, `false` for 急跌), COMEX price, benchmark,
  diff, percentage change, converted Shanghai price, spread;
* `cmeAlert` — a CME announcement alert (lines 252-260): title,
  published time, link. -/
inductive Msg where
  | degradation : Msg
  | report (comex shfe_usd rate spread benchmark change change_pct success_rate : ℚ) : Msg
  | priceAlert (rise : Bool) (comex benchmark diff change_pct shfe_usd spread : ℚ) : Msg
  | cmeAlert (title published link : String) : Msg
deriving DecidableEq

/-- The CME alert message built from a feed entry (source lines 252-260). -/
def cmeMsg (e : Entry) : Msg := Msg.cmeAlert e.title e.published e.link

/-- Is a message a threshold price alert? -/
def isPriceAlert : Msg → Bool
  | Msg.priceAlert .. => true
  | _ => false

/-- Is a message the system-degradation warning? -/
def isDegradation : Msg → Bool
  | Msg.degradation => true
  | _ => false

/-- Direction of the first threshold alert in a message list, if any
(`some true` = rise, `some false` = fall, `none` = no alert). -/
def alertDir (ms : List Msg) : Option Bool :=
  ms.findSome? fun m =>
    match m with
    | Msg.priceAlert rise _ _ _ _ _ _ => some rise
    | _ => none

/-- The loop body of `check_cme_news` (source lines 230-264): walk the
given entries in order; a link already seen is skipped entirely; an
unseen entry produces an alert iff its title matches both keyword
groups, and its link is added to the seen-set either way.
Returns the final seen-set and the alert messages in dispatch order. -/
def processEntries : List String → List Entry → List String × List Msg
  | seen, [] => (seen, [])
  | seen, e :: rest =>
    if e.link ∈ seen then
      processEntries seen rest
    else
      ((processEntries (seen ++ [e.link]) rest).1,
        (if has_silver e.title && has_margin e.title then [cmeMsg e] else [])
          ++ (processEntries (seen ++ [e.link]) rest).2)

/-- Function `check_cme_news(last_seen_links)` (source lines 213-277), with the
parsed feed supplied as input.  Scans `feed.entries[:10]`.
The first component is the value the Python function returns to its
caller (`return last_seen_links`, line 273).  The second component is
the trace of messages the function itself dispatches through
`send_telegram` (lines 266-271); the Python return value contains no
messages. -/
def check_cme_news (last_seen_links : List String) (feed : List Entry) :
    List String × List Msg :=
  processEntries last_seen_links (feed.take 10)

/-- Record `MonitorState` (source lines 284-293). -/
structure MonitorState where
  benchmark_price : Option ℚ
  last_report_time : ℚ
  last_comex : Option ℚ
  last_shfe : Option ℚ
  consecutive_failures : ℕ
  total_checks : ℕ
  successful_checks : ℕ
deriving DecidableEq

/-- Constructor `MonitorState.__init__` (source lines 286-293), with the startup
time `t` in place of `time.time()`.  The counters are modelled as `ℕ`:
the source only ever increments them or resets `consecutive_failures`
to 0, so they are always non-negative integers. -/
def MonitorState.init (t : ℚ) : MonitorState :=
  { benchmark_price := none
    last_report_time := t
    last_comex := none
    last_shfe := none
    consecutive_failures := 0
    total_checks := 0
    successful_checks := 0 }

/-- Method `MonitorState.update_success` (source lines 295-298). -/
def MonitorState.update_success (st : MonitorState) : MonitorState :=
  { st with
    consecutive_failures := 0
    total_checks := st.total_checks + 1
    successful_checks := st.successful_checks + 1 }

/-- Method `MonitorState.update_failure` (source lines 300-302). -/
def MonitorState.update_failure (st : MonitorState) : MonitorState :=
  { st with
    consecutive_failures := st.consecutive_failures + 1
    total_checks := st.total_checks + 1 }

/-- Method `MonitorState.get_success_rate` (source lines 304-307). -/
def MonitorState.get_success_rate (st : MonitorState) : ℚ :=
  if st.total_checks = 0 then 0
  else ((st.successful_checks : ℚ) / (st.total_checks : ℚ)) * 100

/-- The spread computation of source lines 351-352, with the unit
conversion factor as a parameter as in the spec's `computeSpread`
contract (§4.1); `monitoring_cycle` performs exactly this computation
at `KG_TO_OZ_FACTOR`. -/
def computeSpread (exchangePrice spotPrice fxRate unitConversionFactor : ℚ) : ℚ × ℚ :=
  let spotInExchangeCurrency := (spotPrice / fxRate) / unitConversionFactor
  (spotInExchangeCurrency, spotInExchangeCurrency - exchangePrice)

/-- Function `monitoring_cycle(state, last_seen_links)` (source lines 314-429).
The fetched values (`get_comex_price()`, `get_shfe_price()`,
`get_usdcny()`, `time.time()`) and the parsed CME feed are supplied as
inputs, since they are external I/O.  Returns the updated state, the
updated seen-set, and the trace of all messages sent through
`send_telegram` during the cycle, in dispatch order (report, then
threshold alert, then CME alerts). -/
def monitoring_cycle (state : MonitorState) (last_seen_links : List String)
    (current_comex current_shfe : Option ℚ) (rate : ℚ) (current_time : ℚ)
    (feed : List Entry) : MonitorState × List String × List Msg :=
  match current_comex, current_shfe with
  | some comex, some shfe =>
    -- --- 3. 計算價差 ---
    let st1 := state.update_success
    let shfe_usd := (shfe / rate) / KG_TO_OZ_FACTOR
    let spread := shfe_usd - comex
    -- 初始化基準價格
    let st2 := if st1.benchmark_price = none
               then { st1 with benchmark_price := some comex } else st1
    let b := st2.benchmark_price.getD comex
    let success_rate := st2.get_success_rate
    -- --- 5. 整點報告 ---
    let st3 := if current_time - st2.last_report_time ≥ REPORT_INTERVAL
               then { st2 with last_report_time := current_time } else st2
    let reportMsgs :=
      if current_time - st2.last_report_time ≥ REPORT_INTERVAL then
        [Msg.report comex shfe_usd rate spread b (comex - b)
          (if b ≠ 0 then ((comex - b) / b) * 100 else 0) success_rate]
      else []
    -- --- 6. 價格波動告警 ---
    let diff := comex - b
    let st4 := if |diff| ≥ PRICE_ALERT_THRESHOLD
               then { st3 with benchmark_price := some comex } else st3
    let alertMsgs :=
      if |diff| ≥ PRICE_ALERT_THRESHOLD then
        [Msg.priceAlert (decide (diff > 0)) comex b diff ((diff / b) * 100) shfe_usd spread]
      else []
    -- --- 7. CME 公告監控 ---
    let cme := check_cme_news last_seen_links feed
    let st5 := { st4 with last_comex := some comex, last_shfe := some shfe }
    (st5, cme.1, reportMsgs ++ alertMsgs ++ cme.2)
  | _, _ =>
    -- --- 2. 數據驗證 ---
    let st' := state.update_failure
    (st', last_seen_links,
      if st'.consecutive_failures = 5 then [Msg.degradation] else [])

/-- The inputs of one successful cycle: the fetched COMEX price, the
fetched Shanghai price, the FX rate, the current time, and the parsed
CME feed. -/
structure CycleIn where
  comex : ℚ
  shfe : ℚ
  rate : ℚ
  now : ℚ
  feed : List Entry
deriving DecidableEq

/-- Run `monitoring_cycle` over a list of successful cycle inputs,
threading the state and the seen-set exactly as the main loop
(source lines 498-500) does. -/
def runState : MonitorState → List String → List CycleIn → MonitorState × List String
  | st, seen, [] => (st, seen)
  | st, seen, x :: xs =>
    let r := monitoring_cycle st seen (some x.comex) (some x.shfe) x.rate x.now x.feed
    runState r.1 r.2.1 xs

/-- State and seen-set just before the cycle at index `n`. -/
def stateAt (st : MonitorState) (seen : List String) (ins : List CycleIn) (n : ℕ) :
    MonitorState × List String :=
  runState st seen (ins.take n)

/-- Full output of the cycle at index `n` (state, seen-set, messages);
out-of-range indices produce no messages. -/
def cycleOut (st : MonitorState) (seen : List String) (ins : List CycleIn) (n : ℕ) :
    MonitorState × List String × List Msg :=
  match ins[n]? with
  | some x =>
    monitoring_cycle (stateAt st seen ins n).1 (stateAt st seen ins n).2
      (some x.comex) (some x.shfe) x.rate x.now x.feed
  | none => ((stateAt st seen ins n).1, (stateAt st seen ins n).2, [])

/-- Did the cycle at index `n` emit a threshold price alert? -/
def firedAt (st : MonitorState) (seen : List String) (ins : List CycleIn) (n : ℕ) : Bool :=
  (cycleOut st seen ins n).2.2.any isPriceAlert

/-- Run `n` consecutive failed cycles (both prices unavailable),
collecting the state, seen-set and all messages sent. -/
def runFail : MonitorState → List String → ℕ → (MonitorState × List String) × List Msg
  | st, seen, 0 => ((st, seen), [])
  | st, seen, n + 1 =>
    let r := monitoring_cycle st seen none none 0 0 []
    let rest := runFail r.1 r.2.1 n
    (rest.1, r.2.2 ++ rest.2)

lemma processEntries_msgs_spec (es : List Entry) :
    ∀ seen : List String, ∀ m ∈ (processEntries seen es).2,
      ∃ e ∈ es, e.link ∉ seen ∧ (has_silver e.title && has_margin e.title) = true ∧
        m = cmeMsg e := by
  induction es with
  | nil => intro seen m hm; simp [processEntries] at hm
  | cons e rest ih =>
    intro seen m hm
    simp only [processEntries] at hm
    by_cases hs : e.link ∈ seen
    · rw [if_pos hs] at hm
      obtain ⟨e', he', hns, hk, hm'⟩ := ih seen m hm
      exact ⟨e', List.mem_cons_of_mem _ he', hns, hk, hm'⟩
    · rw [if_neg hs] at hm
      simp only [List.mem_append] at hm
      rcases hm with hm | hm
      · by_cases hk : (has_silver e.title && has_margin e.title) = true
        · rw [if_pos hk] at hm
          simp only [List.mem_singleton] at hm
          exact ⟨e, List.mem_cons_self _ _, hs, hk, hm⟩
        · rw [if_neg hk] at hm
          simp at hm
      · obtain ⟨e', he', hns, hk, hm'⟩ := ih (seen ++ [e.link]) m hm
        refine ⟨e', List.mem_cons_of_mem _ he', fun hc => hns ?_, hk, hm'⟩
        exact List.mem_append_left _ hc

lemma processEntries_any_price (es : List Entry) (seen : List String) :
    (processEntries seen es).2.any isPriceAlert = false := by
  rw [List.any_eq_false]
  intro m hm
  obtain ⟨e, _, _, _, hm'⟩ := processEntries_msgs_spec es seen m hm
  subst hm'
  simp [cmeMsg, isPriceAlert]

lemma processEntries_filter_price (es : List Entry) (seen : List String) :
    (processEntries seen es).2.filter isPriceAlert = [] := by
  rw [List.filter_eq_nil_iff]
  intro m hm
  obtain ⟨e, _, _, _, hm'⟩ := processEntries_msgs_spec es seen m hm
  subst hm'
  simp [cmeMsg, isPriceAlert]

lemma cycle_success_bench (st : MonitorState) (seen : List String)
    (c s rate now : ℚ) (feed : List Entry) :
    (monitoring_cycle st seen (some c) (some s) rate now feed).1.benchmark_price
      = some (if PRICE_ALERT_THRESHOLD ≤ |c - st.benchmark_price.getD c| then c
              else st.benchmark_price.getD c) := by
  cases hb : st.benchmark_price with
  | none =>
    simp [monitoring_cycle, MonitorState.update_success, hb]
    split_ifs <;> simp_all
  | some b0 =>
    simp [monitoring_cycle, MonitorState.update_success, hb]
    split_ifs <;> simp_all

lemma cycle_success_fired (st : MonitorState) (seen : List String)
    (c s rate now : ℚ) (feed : List Entry) :
    (monitoring_cycle st seen (some c) (some s) rate now feed).2.2.any isPriceAlert
      = decide (PRICE_ALERT_THRESHOLD ≤ |c - st.benchmark_price.getD c|) := by
  cases hb : st.benchmark_price with
  | none =>
    simp [monitoring_cycle, MonitorState.update_success, hb, check_cme_news,
      processEntries_any_price, isPriceAlert]
    split_ifs <;> simp_all [isPriceAlert, processEntries_any_price, check_cme_news]
  | some b0 =>
    simp [monitoring_cycle, MonitorState.update_success, hb, check_cme_news,
      processEntries_any_price, isPriceAlert]
    split_ifs <;> simp_all [isPriceAlert, processEntries_any_price, check_cme_news]

lemma runState_cons (st : MonitorState) (seen : List String) (x : CycleIn)
    (xs : List CycleIn) :
    runState st seen (x :: xs)
      = runState (monitoring_cycle st seen (some x.comex) (some x.shfe) x.rate x.now x.feed).1
          (monitoring_cycle st seen (some x.comex) (some x.shfe) x.rate x.now x.feed).2.1
          xs := rfl

lemma runState_append (l1 l2 : List CycleIn) :
    ∀ (st : MonitorState) (seen : List String),
      runState st seen (l1 ++ l2)
        = runState (runState st seen l1).1 (runState st seen l1).2 l2 := by
  induction l1 with
  | nil => intro st seen; rfl
  | cons x xs ih =>
    intro st seen
    rw [List.cons_append, runState_cons, runState_cons]
    exact ih _ _

lemma stateAt_succ {ins : List CycleIn} {n : ℕ} {x : CycleIn}
    (st : MonitorState) (seen : List String) (hx : ins[n]? = some x) :
    stateAt st seen ins (n + 1)
      = ((cycleOut st seen ins n).1, (cycleOut st seen ins n).2.1) := by
  simp only [stateAt, List.take_succ, hx, Option.toList_some, runState_append, cycleOut]
  rw [runState_cons]
  rfl

lemma stateAt_succ_none {ins : List CycleIn} {n : ℕ}
    (st : MonitorState) (seen : List String) (hx : ins[n]? = none) :
    stateAt st seen ins (n + 1) = stateAt st seen ins n := by
  simp [stateAt, List.take_succ, hx]

lemma firedAt_eq {ins : List CycleIn} {n : ℕ} {x : CycleIn}
    (st : MonitorState) (seen : List String) (hx : ins[n]? = some x) :
    firedAt st seen ins n
      = decide (PRICE_ALERT_THRESHOLD
          ≤ |x.comex - (stateAt st seen ins n).1.benchmark_price.getD x.comex|) := by
  simp only [firedAt, cycleOut, hx]
  exact cycle_success_fired _ _ _ _ _ _ _

lemma bench_after_fired {ins : List CycleIn} {n : ℕ} {x : CycleIn}
    (st : MonitorState) (seen : List String) (hx : ins[n]? = some x)
    (hf : firedAt st seen ins n = true) :
    (stateAt st seen ins (n + 1)).1.benchmark_price = some x.comex := by
  rw [stateAt_succ st seen hx]
  simp only [cycleOut, hx]
  rw [cycle_success_bench]
  rw [firedAt_eq st seen hx] at hf
  rw [if_pos (of_decide_eq_true hf)]

lemma bench_after_not_fired {ins : List CycleIn} {n : ℕ} {x : CycleIn} {b0 : ℚ}
    (st : MonitorState) (seen : List String) (hx : ins[n]? = some x)
    (hb : (stateAt st seen ins n).1.benchmark_price = some b0)
    (hf : firedAt st seen ins n = false) :
    (stateAt st seen ins (n + 1)).1.benchmark_price = some b0 := by
  rw [stateAt_succ st seen hx]
  simp only [cycleOut, hx]
  rw [cycle_success_bench]
  rw [firedAt_eq st seen hx] at hf
  rw [hb] at hf ⊢
  simp only [Option.getD_some] at hf ⊢
  rw [if_neg (of_decide_eq_false hf)]

lemma bench_stable (st : MonitorState) (seen : List String) (ins : List CycleIn) :
    ∀ (d n : ℕ) (b0 : ℚ),
      (stateAt st seen ins n).1.benchmark_price = some b0 →
      (∀ k, n ≤ k → k < n + d → firedAt st seen ins k = false) →
      (stateAt st seen ins (n + d)).1.benchmark_price = some b0 := by
  intro d
  induction d with
  | zero => intro n b0 hb _; simpa using hb
  | succ d ih =>
    intro n b0 hb hnf
    have hstep : (stateAt st seen ins (n + 1)).1.benchmark_price = some b0 := by
      cases hx : ins[n]? with
      | none => rw [stateAt_succ_none st seen hx]; exact hb
      | some x =>
        exact bench_after_not_fired st seen hx hb (hnf n (le_refl n) (by omega))
    have hshift : n + (d + 1) = (n + 1) + d := by omega
    rw [hshift]
    exact ih (n + 1) b0 hstep (fun k hk1 hk2 => hnf k (by omega) (by omega))

/-- C2: for every sequence of successful exchange-price samples fed
through consecutive `monitoring_cycle` calls, if threshold alerts fire at
cycles `i` and `j` (`i < j`) with no alert in between, then the benchmark
in force at cycle `j` is exactly the sample of cycle `i` (the price at
the earlier alert, to which the benchmark was rebased), and the
triggering sample of cycle `j` differs from that benchmark by at least
`PRICE_ALERT_THRESHOLD`. -/
theorem alert_spacing (st : MonitorState) (seen : List String)
    (ins : List CycleIn) (i j : ℕ) (xi xj : CycleIn)
    (hxi : ins[i]? = some xi) (hxj : ins[j]? = some xj) (hij : i < j)
    (hfi : firedAt st seen ins i = true) (hfj : firedAt st seen ins j = true)
    (hmid : ∀ k, i < k → k < j → firedAt st seen ins k = false) :
    (stateAt st seen ins j).1.benchmark_price = some xi.comex ∧
      |xj.comex - xi.comex| ≥ PRICE_ALERT_THRESHOLD := by
  have h1 : (stateAt st seen ins (i + 1)).1.benchmark_price = some xi.comex :=
    bench_after_fired st seen hxi hfi
  have h2 : (stateAt st seen ins j).1.benchmark_price = some xi.comex := by
    have hshift : j = (i + 1) + (j - i - 1) := by omega
    rw [hshift]
    exact bench_stable st seen ins (j - i - 1) (i + 1) xi.comex h1
      (fun k hk1 hk2 => hmid k (by omega) (by omega))
  refine ⟨h2, ?_⟩
  rw [firedAt_eq st seen hxj, h2] at hfj
  simp only [Option.getD_some] at hfj
  exact of_decide_eq_true hfj

/-- Concrete state for the `alert_spacing` witness: benchmark at 30.00. -/
def spacingSt : MonitorState := ⟨some 30, 0, none, none, 0, 0, 0⟩

/-- First witness sample: COMEX 30.35. -/
def spacingIn1 : CycleIn := ⟨607/20, 7000, 7, 1, []⟩

/-- Second witness sample: COMEX 30.05. -/
def spacingIn2 : CycleIn := ⟨601/20, 7000, 7, 1, []⟩

/-- The witness input sequence for `alert_spacing`. -/
def spacingIns : List CycleIn := [spacingIn1, spacingIn2]

/-- Witness for `alert_spacing`: benchmark 30.00, alerts at samples
30.35 (cycle 0) and 30.05 (cycle 1); at cycle 1 the benchmark is 30.35
and the move |30.05 − 30.35| = 0.30 reaches the threshold. -/
theorem alert_spacing_witness :
    (stateAt spacingSt [] spacingIns 1).1.benchmark_price = some ((607:ℚ)/20) ∧
      |(601:ℚ)/20 - 607/20| ≥ PRICE_ALERT_THRESHOLD := by
  have hf0 : firedAt spacingSt [] spacingIns 0 = true := by
    rw [firedAt_eq spacingSt [] (show spacingIns[0]? = some spacingIn1 from rfl)]
    rw [show (stateAt spacingSt [] spacingIns 0).1.benchmark_price = some 30 from rfl]
    simp only [Option.getD_some, decide_eq_true_eq, spacingIn1]
    rw [le_abs]
    norm_num [PRICE_ALERT_THRESHOLD]
  have hf1 : firedAt spacingSt [] spacingIns 1 = true := by
    rw [firedAt_eq spacingSt [] (show spacingIns[1]? = some spacingIn2 from rfl)]
    rw [bench_after_fired spacingSt []
      (show spacingIns[0]? = some spacingIn1 from rfl) hf0]
    simp only [Option.getD_some, decide_eq_true_eq, spacingIn1, spacingIn2]
    rw [le_abs]
    norm_num [PRICE_ALERT_THRESHOLD]
  exact alert_spacing spacingSt [] spacingIns 0 1 spacingIn1 spacingIn2 rfl rfl
    (by omega) hf0 hf1 (fun k hk1 hk2 => absurd hk1 (by omega))

lemma processEntries_alertDir (es : List Entry) (seen : List String) :
    alertDir (processEntries seen es).2 = none := by
  rw [alertDir, List.findSome?_eq_none_iff]
  intro m hm
  obtain ⟨e, _, _, _, hm'⟩ := processEntries_msgs_spec es seen m hm
  subst hm'
  rfl

lemma alertDir_nil : alertDir [] = none := rfl

lemma alertDir_append (l1 l2 : List Msg) :
    alertDir (l1 ++ l2) = (alertDir l1).or (alertDir l2) := by
  simp [alertDir, List.findSome?_append]

lemma alertDir_report (l : List Msg) (a b c d e f g h : ℚ) :
    alertDir (Msg.report a b c d e f g h :: l) = alertDir l := by
  simp [alertDir, List.findSome?_cons]

lemma alertDir_priceAlert (l : List Msg) (r : Bool) (a b c d e f : ℚ) :
    alertDir (Msg.priceAlert r a b c d e f :: l) = some r := by
  simp [alertDir, List.findSome?_cons]

lemma cycle_success_alertDir (st : MonitorState) (seen : List String)
    (c s rate now : ℚ) (feed : List Entry) :
    alertDir (monitoring_cycle st seen (some c) (some s) rate now feed).2.2
      = if PRICE_ALERT_THRESHOLD ≤ |c - st.benchmark_price.getD c|
        then some (decide (c - st.benchmark_price.getD c > 0)) else none := by
  cases hb : st.benchmark_price with
  | none =>
    simp [monitoring_cycle, MonitorState.update_success, hb, check_cme_news]
    split_ifs <;>
      simp_all [alertDir_append, alertDir_report, alertDir_priceAlert, alertDir_nil,
        processEntries_alertDir]
  | some b0 =>
    simp [monitoring_cycle, MonitorState.update_success, hb, check_cme_news]
    split_ifs <;>
      simp_all [alertDir_append, alertDir_report, alertDir_priceAlert, alertDir_nil,
        processEntries_alertDir]

lemma cycle_success_filter (st : MonitorState) (seen : List String)
    (c s rate now : ℚ) (feed : List Entry) (b : ℚ)
    (hb : st.benchmark_price = some b) :
    (monitoring_cycle st seen (some c) (some s) rate now feed).2.2.filter isPriceAlert
      = if PRICE_ALERT_THRESHOLD ≤ |c - b| then
          [Msg.priceAlert (decide (c - b > 0)) c b (c - b) (((c - b) / b) * 100)
            ((s / rate) / KG_TO_OZ_FACTOR) ((s / rate) / KG_TO_OZ_FACTOR - c)]
        else [] := by
  simp [monitoring_cycle, MonitorState.update_success, hb, check_cme_news]
  split_ifs <;>
    simp_all [check_cme_news, processEntries_filter_price, isPriceAlert]

/-- Scenario state for C1: benchmark already set to 30.00. -/
def scenSt : MonitorState := ⟨some 30, 0, none, none, 0, 0, 0⟩

/-- Scenario sample 1: COMEX 30.35. -/
def scenIn1 : CycleIn := ⟨607/20, 7000, 7, 1, []⟩

/-- Scenario sample 2: COMEX 30.50. -/
def scenIn2 : CycleIn := ⟨61/2, 7000, 7, 1, []⟩

/-- Scenario sample 3: COMEX 30.05. -/
def scenIn3 : CycleIn := ⟨601/20, 7000, 7, 1, []⟩

/-- The spec's sample sequence 30.35, 30.50, 30.05. -/
def scenIns : List CycleIn := [scenIn1, scenIn2, scenIn3]

/-- C1: threshold alert and rebase.  For a successful cycle with the
benchmark already set to `b`: the post-cycle benchmark is the sample `c`
exactly when `|c - b| ≥ PRICE_ALERT_THRESHOLD` (and is unchanged
otherwise), and the cycle's threshold-alert messages consist of exactly
one alert, classified as a rise when `c - b > 0` and a fall otherwise,
iff `|c - b| ≥ PRICE_ALERT_THRESHOLD`.  Moreover, starting from
benchmark 30.00, the sample sequence 30.35, 30.50, 30.05 produces
exactly a rise alert (rebasing to 30.35), then no alert, then a fall
alert (rebasing to 30.05). -/
theorem threshold_alert_and_rebase (st : MonitorState) (seen : List String)
    (c s rate now : ℚ) (feed : List Entry) (b : ℚ)
    (hb : st.benchmark_price = some b) :
    ((monitoring_cycle st seen (some c) (some s) rate now feed).1.benchmark_price
        = some (if |c - b| ≥ PRICE_ALERT_THRESHOLD then c else b))
    ∧ ((monitoring_cycle st seen (some c) (some s) rate now feed).2.2.filter isPriceAlert
        = if |c - b| ≥ PRICE_ALERT_THRESHOLD then
            [Msg.priceAlert (decide (c - b > 0)) c b (c - b) (((c - b) / b) * 100)
              ((s / rate) / KG_TO_OZ_FACTOR) ((s / rate) / KG_TO_OZ_FACTOR - c)]
          else [])
    ∧ alertDir (cycleOut scenSt [] scenIns 0).2.2 = some true
    ∧ (stateAt scenSt [] scenIns 1).1.benchmark_price = some ((607:ℚ)/20)
    ∧ alertDir (cycleOut scenSt [] scenIns 1).2.2 = none
    ∧ (stateAt scenSt [] scenIns 2).1.benchmark_price = some ((607:ℚ)/20)
    ∧ alertDir (cycleOut scenSt [] scenIns 2).2.2 = some false
    ∧ (stateAt scenSt [] scenIns 3).1.benchmark_price = some ((601:ℚ)/20) := by
  have hf0 : firedAt scenSt [] scenIns 0 = true := by
    rw [firedAt_eq scenSt [] (show scenIns[0]? = some scenIn1 from rfl)]
    rw [show (stateAt scenSt [] scenIns 0).1.benchmark_price = some 30 from rfl]
    simp only [Option.getD_some, decide_eq_true_eq, scenIn1]
    rw [le_abs]
    norm_num [PRICE_ALERT_THRESHOLD]
  have hb1 : (stateAt scenSt [] scenIns 1).1.benchmark_price = some ((607:ℚ)/20) :=
    bench_after_fired scenSt [] (show scenIns[0]? = some scenIn1 from rfl) hf0
  have hf1 : firedAt scenSt [] scenIns 1 = false := by
    rw [firedAt_eq scenSt [] (show scenIns[1]? = some scenIn2 from rfl), hb1]
    simp only [Option.getD_some, scenIn2]
    rw [decide_eq_false_iff_not, not_le, abs_lt]
    constructor <;> norm_num [PRICE_ALERT_THRESHOLD]
  have hb2 : (stateAt scenSt [] scenIns 2).1.benchmark_price = some ((607:ℚ)/20) :=
    bench_after_not_fired scenSt [] (show scenIns[1]? = some scenIn2 from rfl) hb1 hf1
  have hf2 : firedAt scenSt [] scenIns 2 = true := by
    rw [firedAt_eq scenSt [] (show scenIns[2]? = some scenIn3 from rfl), hb2]
    simp only [Option.getD_some, decide_eq_true_eq, scenIn3]
    rw [le_abs]
    norm_num [PRICE_ALERT_THRESHOLD]
  have hb3 : (stateAt scenSt [] scenIns 3).1.benchmark_price = some ((601:ℚ)/20) :=
    bench_after_fired scenSt [] (show scenIns[2]? = some scenIn3 from rfl) hf2
  refine ⟨?_, ?_, ?_, hb1, ?_, hb2, ?_, hb3⟩
  · rw [cycle_success_bench st seen c s rate now feed, hb]
    simp only [Option.getD_some, ge_iff_le]
  · rw [cycle_success_filter st seen c s rate now feed b hb]
  · rw [show cycleOut scenSt [] scenIns 0
        = monitoring_cycle (stateAt scenSt [] scenIns 0).1 (stateAt scenSt [] scenIns 0).2
            (some ((607:ℚ)/20)) (some 7000) 7 1 [] from rfl]
    rw [cycle_success_alertDir]
    rw [show (stateAt scenSt [] scenIns 0).1.benchmark_price = some 30 from rfl]
    simp only [Option.getD_some]
    rw [if_pos (by rw [le_abs]; norm_num [PRICE_ALERT_THRESHOLD])]
    rw [decide_eq_true (show (607:ℚ)/20 - 30 > 0 by norm_num)]
  · rw [show cycleOut scenSt [] scenIns 1
        = monitoring_cycle (stateAt scenSt [] scenIns 1).1 (stateAt scenSt [] scenIns 1).2
            (some ((61:ℚ)/2)) (some 7000) 7 1 [] from rfl]
    rw [cycle_success_alertDir, hb1]
    simp only [Option.getD_some]
    rw [if_neg (by rw [not_le, abs_lt]; constructor <;> norm_num [PRICE_ALERT_THRESHOLD])]
  · rw [show cycleOut scenSt [] scenIns 2
        = monitoring_cycle (stateAt scenSt [] scenIns 2).1 (stateAt scenSt [] scenIns 2).2
            (some ((601:ℚ)/20)) (some 7000) 7 1 [] from rfl]
    rw [cycle_success_alertDir, hb2]
    simp only [Option.getD_some]
    rw [if_pos (by rw [le_abs]; norm_num [PRICE_ALERT_THRESHOLD])]
    rw [decide_eq_false (show ¬((601:ℚ)/20 - 607/20 > 0) by norm_num)]

/-- Witness for `threshold_alert_and_rebase`: a cycle at benchmark 30.00
with sample 31.00 (a breach), plus the concrete three-sample scenario. -/
theorem threshold_alert_and_rebase_witness :
    ((monitoring_cycle scenSt [] (some 31) (some 7000) 7 1 []).1.benchmark_price
        = some (if |(31:ℚ) - 30| ≥ PRICE_ALERT_THRESHOLD then 31 else 30))
    ∧ ((monitoring_cycle scenSt [] (some 31) (some 7000) 7 1 []).2.2.filter isPriceAlert
        = if |(31:ℚ) - 30| ≥ PRICE_ALERT_THRESHOLD then
            [Msg.priceAlert (decide ((31:ℚ) - 30 > 0)) 31 30 (31 - 30)
              (((31 - 30) / 30) * 100)
              ((7000 / 7) / KG_TO_OZ_FACTOR) ((7000 / 7) / KG_TO_OZ_FACTOR - 31)]
          else [])
    ∧ alertDir (cycleOut scenSt [] scenIns 0).2.2 = some true
    ∧ (stateAt scenSt [] scenIns 1).1.benchmark_price = some ((607:ℚ)/20)
    ∧ alertDir (cycleOut scenSt [] scenIns 1).2.2 = none
    ∧ (stateAt scenSt [] scenIns 2).1.benchmark_price = some ((607:ℚ)/20)
    ∧ alertDir (cycleOut scenSt [] scenIns 2).2.2 = some false
    ∧ (stateAt scenSt [] scenIns 3).1.benchmark_price = some ((601:ℚ)/20) :=
  threshold_alert_and_rebase scenSt [] 31 7000 7 1 [] 30 rfl

/-- C3: within one successful cycle with the report due, the cycle's
message trace is exactly the periodic report followed by whatever the
same cycle would emit with the report not due (threshold alert first,
then CME alerts): the report is emitted before the threshold alert; the
benchmark and percentage-change fields of the report use the pre-rebase
benchmark `b`; and emitting the report changes nothing in the final
state except `last_report_time` (the final state coincides with that of
the no-report run, whose `last_report_time` is also `now`). -/
theorem report_before_alert (st : MonitorState) (seen : List String)
    (c s rate now : ℚ) (feed : List Entry) (b : ℚ)
    (hb : st.benchmark_price = some b)
    (hdue : now - st.last_report_time ≥ REPORT_INTERVAL) :
    (monitoring_cycle st seen (some c) (some s) rate now feed).1
      = (monitoring_cycle { st with last_report_time := now } seen
          (some c) (some s) rate now feed).1
    ∧ (monitoring_cycle st seen (some c) (some s) rate now feed).2.1
      = (monitoring_cycle { st with last_report_time := now } seen
          (some c) (some s) rate now feed).2.1
    ∧ (monitoring_cycle st seen (some c) (some s) rate now feed).2.2
      = Msg.report c ((s / rate) / KG_TO_OZ_FACTOR) rate
          ((s / rate) / KG_TO_OZ_FACTOR - c) b (c - b)
          (if b ≠ 0 then ((c - b) / b) * 100 else 0)
          st.update_success.get_success_rate
        :: (monitoring_cycle { st with last_report_time := now } seen
            (some c) (some s) rate now feed).2.2
    ∧ (monitoring_cycle st seen (some c) (some s) rate now feed).1.last_report_time
        = now := by
  have hnd : ¬ (REPORT_INTERVAL ≤ now - now) := by
    rw [sub_self]
    norm_num [REPORT_INTERVAL]
  simp [monitoring_cycle, MonitorState.update_success, hb, ge_iff_le] at hdue ⊢
  split_ifs <;> simp_all

/-- Concrete state for the `report_before_alert` witness. -/
def reportSt : MonitorState := ⟨some 30, 0, none, none, 0, 0, 0⟩

/-- Witness for `report_before_alert`: benchmark 30.00, last report at
time 0, cycle at time 4000 (report due), sample 31.00. -/
theorem report_before_alert_witness :
    (monitoring_cycle reportSt [] (some 31) (some 7000) 7 4000 []).1
      = (monitoring_cycle { reportSt with last_report_time := 4000 } []
          (some 31) (some 7000) 7 4000 []).1
    ∧ (monitoring_cycle reportSt [] (some 31) (some 7000) 7 4000 []).2.1
      = (monitoring_cycle { reportSt with last_report_time := 4000 } []
          (some 31) (some 7000) 7 4000 []).2.1
    ∧ (monitoring_cycle reportSt [] (some 31) (some 7000) 7 4000 []).2.2
      = Msg.report 31 ((7000 / 7) / KG_TO_OZ_FACTOR) 7
          ((7000 / 7) / KG_TO_OZ_FACTOR - 31) 30 (31 - 30)
          (if (30:ℚ) ≠ 0 then ((31 - 30) / 30) * 100 else 0)
          reportSt.update_success.get_success_rate
        :: (monitoring_cycle { reportSt with last_report_time := 4000 } []
            (some 31) (some 7000) 7 4000 []).2.2
    ∧ (monitoring_cycle reportSt [] (some 31) (some 7000) 7 4000 []).1.last_report_time
        = 4000 :=
  report_before_alert reportSt [] 31 7000 7 4000 [] 30 rfl
    (by norm_num [REPORT_INTERVAL, reportSt])

lemma cycle_failure (st : MonitorState) (seen : List String)
    (copt sopt : Option ℚ) (rate now : ℚ) (feed : List Entry)
    (hfail : copt = none ∨ sopt = none) :
    monitoring_cycle st seen copt sopt rate now feed
      = ({ st with
            consecutive_failures := st.consecutive_failures + 1
            total_checks := st.total_checks + 1 },
         seen,
         if st.consecutive_failures + 1 = 5 then [Msg.degradation] else []) := by
  rcases hfail with h | h <;> subst h
  · cases sopt <;> simp [monitoring_cycle, MonitorState.update_failure]
  · cases copt <;> simp [monitoring_cycle, MonitorState.update_failure]

lemma runFail_succ (st : MonitorState) (seen : List String) (n : ℕ) :
    runFail st seen (n + 1)
      = ((runFail (monitoring_cycle st seen none none 0 0 []).1
            (monitoring_cycle st seen none none 0 0 []).2.1 n).1,
         (monitoring_cycle st seen none none 0 0 []).2.2
           ++ (runFail (monitoring_cycle st seen none none 0 0 []).1
                (monitoring_cycle st seen none none 0 0 []).2.1 n).2) := rfl

lemma runFail_count (n : ℕ) :
    ∀ (st : MonitorState) (seen : List String),
      (runFail st seen n).2.countP isDegradation
        = if st.consecutive_failures < 5 ∧ 5 ≤ st.consecutive_failures + n
          then 1 else 0 := by
  induction n with
  | zero =>
    intro st seen
    rw [if_neg (by omega)]
    rfl
  | succ n ih =>
    intro st seen
    rw [runFail_succ, cycle_failure st seen none none 0 0 [] (Or.inl rfl)]
    simp only [List.countP_append]
    rw [ih]
    dsimp only
    by_cases h5 : st.consecutive_failures + 1 = 5
    · rw [if_pos h5]
      simp only [List.countP_cons, List.countP_nil, isDegradation]
      split_ifs <;> omega
    · rw [if_neg h5]
      simp only [List.countP_nil]
      split_ifs <;> omega

/-- C4: a cycle in which the exchange price or the spot price is
unavailable only increments `consecutive_failures` and `total_checks`
(every other state field and the seen-set are unchanged), and sends the
degradation alert iff `consecutive_failures` equals exactly 5 after the
increment; consequently, a run of `n` consecutive failed cycles starting
from `consecutive_failures = 0` sends exactly one degradation alert when
`n ≥ 5` and none otherwise (in particular none on the 6th and later
failures). -/
theorem failure_cycle_degradation (st st2 : MonitorState)
    (seen seen2 : List String) (copt sopt : Option ℚ) (rate now : ℚ)
    (feed : List Entry) (n : ℕ)
    (hfail : copt = none ∨ sopt = none)
    (h0 : st2.consecutive_failures = 0) :
    (monitoring_cycle st seen copt sopt rate now feed
      = ({ st with
            consecutive_failures := st.consecutive_failures + 1
            total_checks := st.total_checks + 1 },
         seen,
         if st.consecutive_failures + 1 = 5 then [Msg.degradation] else []))
    ∧ (runFail st2 seen2 n).2.countP isDegradation = if 5 ≤ n then 1 else 0 := by
  refine ⟨cycle_failure st seen copt sopt rate now feed hfail, ?_⟩
  rw [runFail_count n st2 seen2, h0]
  split_ifs <;> omega

/-- Concrete state for the `failure_cycle_degradation` witness: already
4 consecutive failures, so the next failure is the exact crossing
point. -/
def failSt : MonitorState := ⟨some 30, 100, some 1, some 2, 4, 9, 5⟩

/-- Witness for `failure_cycle_degradation`: a failed cycle (COMEX
unavailable) at 4 prior consecutive failures, and 7 consecutive failed
cycles from a fresh state. -/
theorem failure_cycle_degradation_witness :
    (monitoring_cycle failSt ["x"] none (some 5) 3 7 []
      = ({ failSt with
            consecutive_failures := failSt.consecutive_failures + 1
            total_checks := failSt.total_checks + 1 },
         ["x"],
         if failSt.consecutive_failures + 1 = 5 then [Msg.degradation] else []))
    ∧ (runFail (MonitorState.init 0) ["y"] 7).2.countP isDegradation
        = if 5 ≤ 7 then 1 else 0 :=
  failure_cycle_degradation failSt (MonitorState.init 0) ["x"] ["y"]
    none (some 5) 3 7 [] 7 (Or.inl rfl) rfl

lemma processEntries_seen_mono (es : List Entry) :
    ∀ (seen : List String) (l : String), l ∈ seen → l ∈ (processEntries seen es).1 := by
  induction es with
  | nil => intro seen l hl; simpa [processEntries] using hl
  | cons e rest ih =>
    intro seen l hl
    simp only [processEntries]
    by_cases hs : e.link ∈ seen
    · rw [if_pos hs]; exact ih seen l hl
    · rw [if_neg hs]
      exact ih (seen ++ [e.link]) l (List.mem_append_left _ hl)

lemma processEntries_seen_links (es : List Entry) :
    ∀ (seen : List String), ∀ e ∈ es, e.link ∈ (processEntries seen es).1 := by
  induction es with
  | nil => intro seen e he; simp at he
  | cons e rest ih =>
    intro seen e' he'
    simp only [processEntries]
    rcases List.mem_cons.mp he' with h | h
    · subst h
      by_cases hs : e'.link ∈ seen
      · rw [if_pos hs]; exact processEntries_seen_mono rest seen _ hs
      · rw [if_neg hs]
        exact processEntries_seen_mono rest (seen ++ [e'.link]) _
          (List.mem_append_right _ (List.mem_singleton_self _))
    · by_cases hs : e.link ∈ seen
      · rw [if_pos hs]; exact ih seen e' h
      · rw [if_neg hs]; exact ih (seen ++ [e.link]) e' h

lemma processEntries_allSeen (es : List Entry) :
    ∀ (seen : List String), (∀ e ∈ es, e.link ∈ seen) →
      processEntries seen es = (seen, []) := by
  induction es with
  | nil => intro seen _; rfl
  | cons e rest ih =>
    intro seen hall
    simp only [processEntries]
    rw [if_pos (hall e (List.mem_cons_self _ _))]
    exact ih seen (fun e' he' => hall e' (List.mem_cons_of_mem _ he'))

/-- C5: announcement processing is idempotent over the seen-set:
every entry examined in the scanned window (`feed.entries[:10]`),
qualifying or not, has its link added to the seen-set, and the original
seen-set is preserved; consequently re-processing the same feed snapshot
with the resulting seen-set produces zero new alerts and leaves the
seen-set unchanged. -/
theorem announcement_idempotent (seen : List String) (feed : List Entry) :
    check_cme_news (check_cme_news seen feed).1 feed
        = ((check_cme_news seen feed).1, [])
    ∧ ((feed.take 10).all fun e =>
        decide (e.link ∈ (check_cme_news seen feed).1)) = true
    ∧ (seen.all fun l => decide (l ∈ (check_cme_news seen feed).1)) = true := by
  refine ⟨?_, ?_, ?_⟩
  · exact processEntries_allSeen (feed.take 10) _
      (fun e he => processEntries_seen_links (feed.take 10) seen e he)
  · rw [List.all_eq_true]
    intro e he
    exact decide_eq_true (processEntries_seen_links (feed.take 10) seen e he)
  · rw [List.all_eq_true]
    intro l hl
    exact decide_eq_true (processEntries_seen_mono (feed.take 10) seen l hl)

lemma listPrefixB_iff : ∀ (n h : List Char), listPrefixB n h = true ↔ n <+: h := by
  intro n
  induction n with
  | nil =>
    intro h
    simp [listPrefixB, List.nil_prefix]
  | cons a as ih =>
    intro h
    cases h with
    | nil => simp [listPrefixB]
    | cons b bs =>
      rw [show listPrefixB (a :: as) (b :: bs) = (a == b && listPrefixB as bs) from rfl]
      rw [Bool.and_eq_true, beq_iff_eq, List.cons_prefix_cons, ih bs]

lemma listSubB_iff : ∀ (h n : List Char), listSubB n h = true ↔ n <:+: h := by
  intro h
  induction h with
  | nil =>
    intro n
    simp [listSubB, List.isEmpty_iff, List.infix_nil]
  | cons c t ih =>
    intro n
    rw [show listSubB n (c :: t) = (listPrefixB n (c :: t) || listSubB n t) from rfl]
    rw [Bool.or_eq_true, listPrefixB_iff, ih n, List.infix_cons_iff]

/-- C6: an unseen announcement qualifies for an alert iff its
lower-cased title contains (as a substring) at least one subject keyword
and at least one margin keyword; a title matching only one of the two
keyword groups produces no alert, and a qualifying title produces the
alert exactly once per identity (re-processing the entry with the
updated seen-set produces nothing). -/
theorem announcement_keyword_rules (seen : List String) (e : Entry)
    (hnew : e.link ∉ seen) :
    ((check_cme_news seen [e]).2
        = if has_silver e.title && has_margin e.title then [cmeMsg e] else [])
    ∧ (has_silver e.title = true
        ↔ ∃ k ∈ silver_keywords, k.data <:+: lowerChars e.title)
    ∧ (has_margin e.title = true
        ↔ ∃ k ∈ margin_keywords, k.data <:+: lowerChars e.title)
    ∧ (check_cme_news (check_cme_news seen [e]).1 [e]).2 = [] := by
  have htake : ([e] : List Entry).take 10 = [e] := rfl
  refine ⟨?_, ?_, ?_, ?_⟩
  · rw [check_cme_news, htake]
    simp only [processEntries, if_neg hnew]
    simp
  · simp [has_silver, List.any_eq_true, listSubB_iff]
  · simp [has_margin, List.any_eq_true, listSubB_iff]
  · rw [check_cme_news, htake, check_cme_news, htake]
    simp only [processEntries, if_neg hnew]
    rw [if_pos (show e.link ∈ seen ++ [e.link] by simp)]

/-- Concrete entry for the `announcement_keyword_rules` witness. -/
def kwEntry : Entry :=
  ⟨"CME raises Silver margin requirements", "https://news.example/1", "2026-01-01"⟩

/-- Witness for `announcement_keyword_rules` at a concrete unseen entry
whose title matches both keyword groups. -/
theorem announcement_keyword_rules_witness :
    ((check_cme_news [] [kwEntry]).2
        = if has_silver kwEntry.title && has_margin kwEntry.title
          then [cmeMsg kwEntry] else [])
    ∧ (check_cme_news (check_cme_news [] [kwEntry]).1 [kwEntry]).2 = [] :=
  ⟨(announcement_keyword_rules [] kwEntry (by simp)).1,
   (announcement_keyword_rules [] kwEntry (by simp)).2.2.2⟩

/-- Concrete entry for the C7 counterexample: unseen and qualifying. -/
def cxEntry : Entry :=
  ⟨"CME Clearing raises Silver performance bond", "https://cme.example/pb", "2026-02-02"⟩

/-- C7 counterexample: the claim says `check_cme_news` returns the
list of alert messages to its caller and never invokes the Notifier
itself.  On the code this is false: for a qualifying unseen entry the
function's own `send_telegram` dispatch trace (source lines 266-271,
the second component of the embedding) is non-empty — the tracker itself
invokes the Notifier — while its Python return value (`return
last_seen_links`, line 273, the first component) is only the updated
seen-set and contains no messages. -/
theorem tracker_notifier_counterexample :
    (check_cme_news [] [cxEntry]).2 ≠ []
    ∧ (check_cme_news [] [cxEntry]).1 = [cxEntry.link] := by
  constructor
  · decide
  · decide

/-- C7 amended: `check_cme_news` dispatches the alert messages for
newly-seen qualifying announcements itself through `send_telegram`
(every message in its dispatch trace is the CME alert of some unseen
qualifying entry of the scanned window), and returns the updated
seen-set — the previous seen-set plus every examined link — to its
caller; the classification is pure apart from the seen-set update. -/
theorem tracker_dispatches_itself (seen : List String) (feed : List Entry) :
    (∀ m ∈ (check_cme_news seen feed).2,
        ∃ e ∈ feed.take 10, e.link ∉ seen
          ∧ (has_silver e.title && has_margin e.title) = true ∧ m = cmeMsg e)
    ∧ (∀ l ∈ seen, l ∈ (check_cme_news seen feed).1)
    ∧ (∀ e ∈ feed.take 10, e.link ∈ (check_cme_news seen feed).1) :=
  ⟨fun m hm => processEntries_msgs_spec (feed.take 10) seen m hm,
   fun l hl => processEntries_seen_mono (feed.take 10) seen l hl,
   fun e he => processEntries_seen_links (feed.take 10) seen e he⟩

/-- Witness for `tracker_dispatches_itself` at a concrete input. -/
theorem tracker_dispatches_itself_witness :
    "https://a.example/x" ∈ (check_cme_news ["https://a.example/x"] [cxEntry]).1
    ∧ cxEntry.link ∈ (check_cme_news ["https://a.example/x"] [cxEntry]).1 :=
  ⟨(tracker_dispatches_itself ["https://a.example/x"] [cxEntry]).2.1
      "https://a.example/x" (by simp),
   (tracker_dispatches_itself ["https://a.example/x"] [cxEntry]).2.2
      cxEntry (by simp)⟩

/-- C8: `get_success_rate` is guarded against division by zero:
with `total_checks = 0` it returns 0 (no division occurs: the zero
branch is taken before any quotient is formed), and with
`total_checks = 10`, `successful_checks = 7` it returns 70 — the
percentage value of the code, matching §8 of the spec rather than the
§3 ratio formula. -/
theorem success_rate_guarded :
    MonitorState.get_success_rate ⟨none, 0, none, none, 0, 0, 0⟩ = 0
    ∧ MonitorState.get_success_rate ⟨none, 0, none, none, 0, 10, 7⟩ = 70 := by
  constructor
  · rfl
  · rw [MonitorState.get_success_rate]
    norm_num

/-- C9: the spread computation is the pure function
`spotInExchangeCurrency = (spotPrice / fxRate) / unitConversionFactor`,
`spread = spotInExchangeCurrency - exchangePrice` — exactly the
computation `monitoring_cycle` performs at `KG_TO_OZ_FACTOR` (source
lines 351-352) — and at `exchangePrice = 32.00`, `spotPrice = 7200`,
`fxRate = 7.2` with the code's factor 32.1507466 it yields
`spotInExchangeCurrency ≈ 31.10` and `spread ≈ -0.90`, each within
0.005 of the spec's two-decimal values. -/
theorem spread_values :
    (∀ c sp f : ℚ, computeSpread c sp f KG_TO_OZ_FACTOR
        = ((sp / f) / KG_TO_OZ_FACTOR, (sp / f) / KG_TO_OZ_FACTOR - c))
    ∧ |(computeSpread 32 7200 (36/5) KG_TO_OZ_FACTOR).1 - 311/10| < 1/200
    ∧ |(computeSpread 32 7200 (36/5) KG_TO_OZ_FACTOR).2 + 9/10| < 1/200 := by
  refine ⟨fun c sp f => rfl, ?_, ?_⟩
  · rw [show (computeSpread 32 7200 (36/5) KG_TO_OZ_FACTOR).1
        = (7200 / (36/5)) / KG_TO_OZ_FACTOR from rfl]
    rw [abs_lt]
    constructor <;> norm_num [KG_TO_OZ_FACTOR]
  · rw [show (computeSpread 32 7200 (36/5) KG_TO_OZ_FACTOR).2
        = (7200 / (36/5)) / KG_TO_OZ_FACTOR - 32 from rfl]
    rw [abs_lt]
    constructor <;> norm_num [KG_TO_OZ_FACTOR]

/-- C10: every `MonitorState` counter operation (construction,
`update_success`, `update_failure`) preserves
`successful_checks ≤ total_checks`, never decreases `total_checks` or
`successful_checks`, and keeps `consecutive_failures` non-negative
(the counters are `ℕ` in the embedding precisely because the source
only increments or resets them); consequently `get_success_rate` always
lies in the closed interval [0, 100]. -/
theorem monitor_state_invariants (t : ℚ) (st : MonitorState)
    (h : st.successful_checks ≤ st.total_checks) :
    (MonitorState.init t).successful_checks ≤ (MonitorState.init t).total_checks
    ∧ st.update_success.successful_checks ≤ st.update_success.total_checks
    ∧ st.update_failure.successful_checks ≤ st.update_failure.total_checks
    ∧ st.total_checks ≤ st.update_success.total_checks
    ∧ st.successful_checks ≤ st.update_success.successful_checks
    ∧ st.total_checks ≤ st.update_failure.total_checks
    ∧ st.successful_checks ≤ st.update_failure.successful_checks
    ∧ 0 ≤ st.update_failure.consecutive_failures
    ∧ 0 ≤ st.get_success_rate ∧ st.get_success_rate ≤ 100 := by
  refine ⟨?_, ?_, ?_, ?_, ?_, ?_, ?_, ?_, ?_, ?_⟩ <;>
    simp only [MonitorState.init, MonitorState.update_success,
      MonitorState.update_failure, MonitorState.get_success_rate]
  · exact Nat.le_refl 0
  · omega
  · omega
  · omega
  · omega
  · omega
  · omega
  · omega
  · split_ifs
    · exact le_refl 0
    · positivity
  · split_ifs with ht
    · norm_num
    · have h2 : (0:ℚ) < st.total_checks := by
        exact_mod_cast Nat.pos_of_ne_zero ht
      have h1 : ((st.successful_checks : ℚ) / st.total_checks) ≤ 1 := by
        rw [div_le_one h2]
        exact_mod_cast h
      calc ((st.successful_checks : ℚ) / st.total_checks) * 100 ≤ 1 * 100 :=
            mul_le_mul_of_nonneg_right h1 (by norm_num)
        _ = 100 := by norm_num

/-- Witness for `monitor_state_invariants` at a concrete state with
7 successes out of 10 checks. -/
theorem monitor_state_invariants_witness :
    (MonitorState.init 0).successful_checks ≤ (MonitorState.init 0).total_checks
    ∧ (⟨none, 0, none, none, 0, 10, 7⟩ : MonitorState).update_success.successful_checks
        ≤ (⟨none, 0, none, none, 0, 10, 7⟩ : MonitorState).update_success.total_checks
    ∧ (⟨none, 0, none, none, 0, 10, 7⟩ : MonitorState).update_failure.successful_checks
        ≤ (⟨none, 0, none, none, 0, 10, 7⟩ : MonitorState).update_failure.total_checks
    ∧ (⟨none, 0, none, none, 0, 10, 7⟩ : MonitorState).total_checks
        ≤ (⟨none, 0, none, none, 0, 10, 7⟩ : MonitorState).update_success.total_checks
    ∧ (⟨none, 0, none, none, 0, 10, 7⟩ : MonitorState).successful_checks
        ≤ (⟨none, 0, none, none, 0, 10, 7⟩ : MonitorState).update_success.successful_checks
    ∧ (⟨none, 0, none, none, 0, 10, 7⟩ : MonitorState).total_checks
        ≤ (⟨none, 0, none, none, 0, 10, 7⟩ : MonitorState).update_failure.total_checks
    ∧ (⟨none, 0, none, none, 0, 10, 7⟩ : MonitorState).successful_checks
        ≤ (⟨none, 0, none, none, 0, 10, 7⟩ : MonitorState).update_failure.successful_checks
    ∧ 0 ≤ (⟨none, 0, none, none, 0, 10, 7⟩ : MonitorState).update_failure.consecutive_failures
    ∧ 0 ≤ (⟨none, 0, none, none, 0, 10, 7⟩ : MonitorState).get_success_rate
    ∧ (⟨none, 0, none, none, 0, 10, 7⟩ : MonitorState).get_success_rate ≤ 100 :=
  monitor_state_invariants 0 ⟨none, 0, none, none, 0, 10, 7⟩ (by decide)
